import Mathlib

/-!
Verification of the gophercloud repository fragment: the `vips` resource
module (`openstack/networking/v2/extensions/lbaas/vips/requests.go`) and the
pagination engine it drives (specified in §4 of the design document; the
engine's own source is not part of the fragment, so it is modelled from the
spec where noted).

Shallow embedding conventions: Go strings are `String`, Go `int` is `Int`,
Go nil-able pointers are `Option`, Go `error` values are an explicit
inductive type, and the HTTP transport is passed in as an explicit oracle so
that the number and order of network calls is observable in the result.
-/

namespace Vips

/-- Errors that flow through a result's `Err` field: the five validation
errors declared in `requests.go` (distinct `fmt.Errorf` values) and
transport failures carrying the HTTP status. -/
inductive GoErr
  | errNameRequired
  | errSubnetIDRequried
  | errProtocolRequired
  | errProtocolPortRequired
  | errPoolIDRequired
  | transport (status : Int)
  deriving DecidableEq, Repr

/-- `ListOpts` from `requests.go` lines 23-39: filtering and sorting options
for the paginated VIP collection. Go zero values: `""` for strings, `0` for
ints, `nil` (here `none`) for the `*bool`. -/
structure ListOpts where
  id              : String := ""
  name            : String := ""
  adminStateUp    : Option Bool := none
  status          : String := ""
  tenantID        : String := ""
  subnetID        : String := ""
  address         : String := ""
  portID          : String := ""
  protocol        : String := ""
  protocolPort    : Int := 0
  connectionLimit : Int := 0
  limit           : Int := 0
  marker          : String := ""
  sortKey         : String := ""
  sortDir         : String := ""
  deriving DecidableEq, Repr

/-- Go's `strconv.FormatBool`. -/
def formatBool (b : Bool) : String := if b then "true" else "false"

/-- Go's `strconv.Itoa`. -/
def itoa (i : Int) : String := toString i

/-- The query map built by `List` (`requests.go` lines 48-93): one entry per
populated option field, under its fixed parameter name. The Go code inserts
into a `map[string]string`; since every key below is distinct, the map is
faithfully represented by this association list (Go map iteration order is
unspecified, and no claim depends on order). -/
def listQuery (opts : ListOpts) : List (String × String) :=
  (if opts.id ≠ "" then [("id", opts.id)] else []) ++
  (if opts.name ≠ "" then [("name", opts.name)] else []) ++
  (if opts.adminStateUp.isSome then
    [("admin_state_up", formatBool (opts.adminStateUp.getD false))] else []) ++
  (if opts.status ≠ "" then [("status", opts.status)] else []) ++
  (if opts.tenantID ≠ "" then [("tenant_id", opts.tenantID)] else []) ++
  (if opts.subnetID ≠ "" then [("subnet_id", opts.subnetID)] else []) ++
  (if opts.address ≠ "" then [("address", opts.address)] else []) ++
  (if opts.portID ≠ "" then [("port_id", opts.portID)] else []) ++
  (if opts.protocol ≠ "" then [("protocol", opts.protocol)] else []) ++
  (if opts.protocolPort ≠ 0 then [("protocol_port", itoa opts.protocolPort)] else []) ++
  (if opts.connectionLimit ≠ 0 then
    [("connection_limit", itoa opts.connectionLimit)] else []) ++
  (if opts.marker ≠ "" then [("marker", opts.marker)] else []) ++
  (if opts.limit ≠ 0 then [("limit", itoa opts.limit)] else []) ++
  (if opts.sortKey ≠ "" then [("sort_key", opts.sortKey)] else []) ++
  (if opts.sortDir ≠ "" then [("sort_dir", opts.sortDir)] else [])

/-- Modelled from the spec: `utils.BuildQuery` (package `openstack/utils`,
not under `src/`) serializes each map entry into exactly one `key=value`
query parameter, and an empty map yields an empty query string (§6: "each
non-empty/non-zero field is serialized into exactly one query parameter with
a fixed name mapping"; §8: "with no non-zero/non-empty fields, the built
query string is empty"). -/
def buildQuery (q : List (String × String)) : String :=
  if q.isEmpty then ""
  else "?" ++ String.intercalate "&" (q.map fun kv => kv.1 ++ "=" ++ kv.2)

/-- Number of entries of `listQuery opts` carried under parameter name `k`. -/
def countKey (q : List (String × String)) (k : String) : Nat :=
  q.countP (fun kv => kv.1 = k)

/-- Session persistence payload. Its concrete shape lives in the package's
results file (not under `src/`); the claims only observe presence/absence,
so it is carried opaquely. -/
structure SessionPersistence where
  data : String := ""
  deriving DecidableEq, Repr

/-- `CreateOpts` from `requests.go` lines 103-139: all values needed to
create a new virtual IP. The first five fields are required; Go `nil`
pointers become `none`. -/
structure CreateOpts where
  name         : String := ""
  subnetID     : String := ""
  protocol     : String := ""
  protocolPort : Int := 0
  poolID       : String := ""
  tenantID     : String := ""
  address      : String := ""
  description  : String := ""
  persistence  : Option SessionPersistence := none
  connLimit    : Option Int := none
  adminStateUp : Option Bool := none
  deriving DecidableEq, Repr

/-- Modelled from the spec: `gophercloud.MaybeString` (root package, not
under `src/`) turns the empty string into an absent optional field, per the
§9 optional-field design ("pointer-to-string for 'present but empty' vs
'absent'": an empty input means the field is omitted from the request). -/
def MaybeString (s : String) : Option String :=
  if s = "" then none else some s

/-- The anonymous `vip` struct from `requests.go` lines 185-197: the JSON
request body for a create call. Optional fields are pointers tagged
`omitempty`. -/
structure VipBody where
  name         : String
  subnetID     : String
  protocol     : String
  protocolPort : Int
  poolID       : String
  description  : Option String
  tenantID     : Option String
  address      : Option String
  persistence  : Option SessionPersistence
  connLimit    : Option Int
  adminStateUp : Option Bool
  deriving DecidableEq, Repr

/-- JSON field names present in the serialized `vip` body, following the
struct tags on `requests.go` lines 186-196: plain fields always appear,
`omitempty` pointer fields appear exactly when non-nil (Go `encoding/json`
semantics for tagged pointer fields). -/
def vipJSONFields (v : VipBody) : List String :=
  ["name", "subnet_id", "protocol", "protocol_port", "pool_id"] ++
  (if v.description.isSome then ["description"] else []) ++
  (if v.tenantID.isSome then ["tenant_id"] else []) ++
  (if v.address.isSome then ["address"] else []) ++
  (if v.persistence.isSome then ["session_persistence"] else []) ++
  (if v.connLimit.isSome then ["connection_limit"] else []) ++
  (if v.adminStateUp.isSome then ["admin_state_up"] else [])

/-- The request body built by `Create` (`requests.go` lines 203-218):
field-by-field translation of the `reqBody` literal, followed by the
conditional `Persistence` assignment. -/
def createReqBody (opts : CreateOpts) : VipBody :=
  let reqBody : VipBody :=
    { name         := opts.name
      subnetID     := opts.subnetID
      protocol     := opts.protocol
      protocolPort := opts.protocolPort
      poolID       := opts.poolID
      description  := MaybeString opts.description
      tenantID     := MaybeString opts.tenantID
      address      := MaybeString opts.address
      persistence  := none
      connLimit    := opts.connLimit
      adminStateUp := opts.adminStateUp }
  if opts.persistence.isSome then
    { reqBody with persistence := opts.persistence }
  else reqBody

/-- Modelled from the spec: `CreateResult` (declared in the package's
results file, not under `src/`) carries one error channel `Err` — shared by
validation and transport failures (§7: "reported through the same error
channel as transport errors") — and the decoded response `Resp`. -/
structure CreateResult where
  err  : Option GoErr := none
  resp : Option String := none
  deriving DecidableEq, Repr

/-- The validation stage of `Create` (`requests.go` lines 163-183): required
options are checked in source order and the first zero-valued one produces
its dedicated error. -/
def createValidate (opts : CreateOpts) : Option GoErr :=
  if opts.name = "" then some .errNameRequired
  else if opts.subnetID = "" then some .errSubnetIDRequried
  else if opts.protocol = "" then some .errProtocolRequired
  else if opts.protocolPort = 0 then some .errProtocolPortRequired
  else if opts.poolID = "" then some .errPoolIDRequired
  else none

/-- Modelled from the spec: the transport collaborator behind
`perigee.Request` (§6: "Must return a non-nil error for any non-2xx status
... Pagination logic treats any non-nil error from this call as terminal";
the call site passes `OkCodes: []int{201}`). One call, one response: a
status outside `okCodes` yields a transport error and no decoded result; an
accepted status yields the decoded body. No retry is modelled because the
spec forbids it ("the engine never retries or suppresses errors"). -/
def perigeeRequest (okCodes : List Int) (status : Int) (body : String) :
    Option GoErr × Option String :=
  if status ∈ okCodes then (none, some body) else (some (.transport status), none)

/-- `Create` from `requests.go` lines 160-228, with the HTTP transport made
explicit: `status`/`respBody` describe what the endpoint would answer, and
the returned list records the request bodies actually sent (so "no network
call" and "no retry" are observable). Validation failures return
immediately with only `Err` set; otherwise exactly one POST is issued and
its outcome fills `Err`/`Resp`. -/
def Create (status : Int) (respBody : String) (opts : CreateOpts) :
    CreateResult × List VipBody :=
  match createValidate opts with
  | some e => ({ err := some e, resp := none }, [])
  | none =>
    let reqBody := createReqBody opts
    let (err, resp) := perigeeRequest [201] status respBody
    ({ err := err, resp := resp }, [reqBody])

/-- Test fixture: a `CreateOpts` with every required field populated. -/
def optsValid : CreateOpts :=
  { name := "vip", subnetID := "sn", protocol := "TCP", protocolPort := 80,
    poolID := "p" }

/-- Test fixture: valid except for the missing Name. -/
def optsNoName : CreateOpts :=
  { subnetID := "sn", protocol := "TCP", protocolPort := 80, poolID := "p" }

/-- Test fixture: valid except for the missing SubnetID. -/
def optsNoSubnet : CreateOpts :=
  { name := "vip", protocol := "TCP", protocolPort := 80, poolID := "p" }

/-- Test fixture: valid except for the zero ProtocolPort. -/
def optsPortZero : CreateOpts :=
  { name := "vip", subnetID := "sn", protocol := "TCP", poolID := "p" }

end Vips

namespace Pagination

/-- Iteration errors: transport failures, malformed next-link metadata, or
an error value handed back by the visitor. Carried as an opaque message so
that "propagated unchanged" is ordinary equality. -/
inductive PErr
  | transport (msg : String)
  | badLink (msg : String)
  | visitor (msg : String)
  deriving DecidableEq, Repr

instance exceptDecEq {ε α : Type} [DecidableEq ε] [DecidableEq α] :
    DecidableEq (Except ε α)
  | .ok a, .ok b =>
    if h : a = b then isTrue (by rw [h]) else isFalse (fun hc => h (Except.ok.inj hc))
  | .ok _, .error _ => isFalse (fun hc => Except.noConfusion hc)
  | .error _, .ok _ => isFalse (fun hc => Except.noConfusion hc)
  | .error e, .error f =>
    if h : e = f then isTrue (by rw [h]) else isFalse (fun hc => h (Except.error.inj hc))

/-- Modelled from the spec: a `Page` (§3, §4.1) is one fetched response
body. It reports its decoded records (`IsEmpty` is "record count is zero")
and its next-page address — `.ok none` when this is the last page (Go's
empty string), `.error _` when the link metadata is malformed. URLs are
abstracted to `Nat`. -/
structure Page where
  records : List String
  next    : Except PErr (Option Nat)
  deriving DecidableEq, Repr

/-- `IsEmpty` from the Page contract (§4.1): true iff the page contains
zero records. -/
def Page.IsEmpty (p : Page) : Bool := p.records.isEmpty

/-- Observable iteration events: an HTTP fetch of a URL, or a visitor
invocation on the page fetched from a URL. The trace order is the real
order of the loop's actions. -/
inductive Ev
  | fetch (u : Nat)
  | visit (u : Nat)
  deriving DecidableEq, Repr

/-- How an `EachPage` run ended: normal return (`nil` error in Go), an
error return, or fuel exhaustion (the Go loop would still be running). -/
inductive LoopResult
  | success
  | failure (e : PErr)
  | outOfFuel
  deriving DecidableEq, Repr

/-- Modelled from the spec: `Pager.EachPage` (§4.2), the pagination engine
(its source is not under `src/`). `fetchFn` is the transport collaborator
(§6), `visitor` the caller-supplied callback returning
`(keepGoing, err)`, the `Option Nat` argument the current URL (`none` is
Go's empty string). `fuel` bounds the number of loop turns so the
definition is total; every claim supplies enough fuel for its page chain.
Steps, as in §4.2: (a) empty URL → success; (b)(c) fetch, transport error
is terminal; (e) empty page → success without visiting; (f)(g) visitor
error propagated unchanged; (h) `keepGoing = false` → success; (i)
next-link error is terminal after the visit completed, otherwise advance.
The event list records every fetch and visit in execution order. -/
def eachPage (fetchFn : Nat → Except PErr Page)
    (visitor : Page → Bool × Option PErr) :
    Nat → Option Nat → List Ev × LoopResult
  | _, none => ([], .success)
  | 0, some _ => ([], .outOfFuel)
  | fuel + 1, some u =>
    match fetchFn u with
    | .error e => ([.fetch u], .failure e)
    | .ok page =>
      if page.IsEmpty then ([.fetch u], .success)
      else
        match visitor page with
        | (_, some e) => ([.fetch u, .visit u], .failure e)
        | (false, none) => ([.fetch u, .visit u], .success)
        | (true, none) =>
          match page.next with
          | .error e => ([.fetch u, .visit u], .failure e)
          | .ok nxt =>
            let rest := eachPage fetchFn visitor fuel nxt
            (.fetch u :: .visit u :: rest.1, rest.2)

/-- A segment of linked, non-empty pages reachable through `fetchFn`:
`ChainSeg fetchFn start prs stop` says that starting at cursor `start`, the
URL/page pairs `prs` are fetched in order, every fetch succeeds with a page
that has records, and each page's next-link parses and points at the next
URL of the segment, ending at cursor `stop`. With `stop = none` this is a
complete linked response set (the last page has no "next" link). -/
inductive ChainSeg (fetchFn : Nat → Except PErr Page) :
    Option Nat → List (Nat × Page) → Option Nat → Prop
  | nil (stop : Option Nat) : ChainSeg fetchFn stop [] stop
  | cons {u : Nat} {p : Page} {nxt stop : Option Nat} {prs : List (Nat × Page)}
      (hfetch : fetchFn u = .ok p)
      (hne : p.records ≠ [])
      (hnext : p.next = .ok nxt)
      (htail : ChainSeg fetchFn nxt prs stop) :
      ChainSeg fetchFn (some u) ((u, p) :: prs) stop

/-- The fetch-visit event interleaving of a fully processed page chain:
page `u` is fetched, then visited, before the next page's events. -/
def chainEvents (us : List Nat) : List Ev :=
  us.flatMap fun u => [.fetch u, .visit u]

/-- Whether an event is an HTTP fetch. -/
def Ev.isFetch : Ev → Bool
  | .fetch _ => true
  | .visit _ => false

/-- Whether an event is a visitor invocation. -/
def Ev.isVisit : Ev → Bool
  | .fetch _ => false
  | .visit _ => true

/-- Number of HTTP fetches in a trace. -/
def countFetches (evs : List Ev) : Nat := evs.countP Ev.isFetch

/-- Number of visitor invocations in a trace. -/
def countVisits (evs : List Ev) : Nat := evs.countP Ev.isVisit

/-- Test fixtures: a two-page linked response set `[a,b] → [c,d]`. -/
def pageA : Page := { records := ["a", "b"], next := .ok (some 1) }

def pageB : Page := { records := ["c", "d"], next := .ok none }

def fetch2 : Nat → Except PErr Page
  | 0 => .ok pageA
  | 1 => .ok pageB
  | _ => .error (.transport "no such url")

/-- A visitor that always keeps going and never errors. -/
def visitAll : Page → Bool × Option PErr := fun _ => (true, none)

/-- A visitor that reports an error on every page it sees. -/
def visitFail : Page → Bool × Option PErr := fun _ => (true, some (.visitor "boom"))

/-- A visitor that asks to stop (without error) on the page `[c,d]` and
keeps going elsewhere. -/
def visitStopAtB : Page → Bool × Option PErr :=
  fun p => (p.records != ["c", "d"], none)

/-- Like `pageB` but with a further page behind it. -/
def pageBLinked : Page := { records := ["c", "d"], next := .ok (some 2) }

def pageC : Page := { records := ["e"], next := .ok none }

/-- Fixture: a three-page linked response set `[a,b] → [c,d] → [e]`. -/
def fetch3 : Nat → Except PErr Page
  | 0 => .ok pageA
  | 1 => .ok pageBLinked
  | 2 => .ok pageC
  | _ => .error (.transport "no such url")

/-- An empty terminal page. -/
def pageEmpty : Page := { records := [], next := .ok none }

/-- Fixture: page `[a,b]` linking to an empty page. -/
def fetchEmptyAt1 : Nat → Except PErr Page
  | 0 => .ok pageA
  | 1 => .ok pageEmpty
  | _ => .error (.transport "no such url")

/-- A page with records whose next-link metadata is malformed. -/
def pageBadLink : Page := { records := ["x"], next := .error (.badLink "malformed") }

/-- Fixture: page `[a,b]` linking to a page with a malformed next-link. -/
def fetchBadAt1 : Nat → Except PErr Page
  | 0 => .ok pageA
  | 1 => .ok pageBadLink
  | _ => .error (.transport "no such url")

theorem countFetches_chainEvents (us : List Nat) :
    countFetches (chainEvents us) = us.length := by
  induction us with
  | nil => rfl
  | cons u us ih =>
    simp [chainEvents, countFetches, List.countP_cons, Ev.isFetch] at ih ⊢
    simpa [chainEvents, countFetches] using ih

theorem countVisits_chainEvents (us : List Nat) :
    countVisits (chainEvents us) = us.length := by
  induction us with
  | nil => rfl
  | cons u us ih =>
    simp [chainEvents, countVisits, List.countP_cons, Ev.isVisit] at ih ⊢
    simpa [chainEvents, countVisits] using ih

/-- Running `eachPage` along a fully processed chain segment: the trace is
the fetch/visit interleaving of the segment's pages followed by whatever
the loop does from the segment's stop cursor, with fuel decremented once
per page. -/
theorem eachPage_chainSeg (fetchFn : Nat → Except PErr Page)
    (visitor : Page → Bool × Option PErr)
    {start stop : Option Nat} {prs : List (Nat × Page)}
    (hc : ChainSeg fetchFn start prs stop)
    (hv : ∀ up ∈ prs, visitor up.2 = (true, none)) :
    ∀ fuel, prs.length ≤ fuel →
      eachPage fetchFn visitor fuel start =
        (chainEvents (prs.map Prod.fst) ++
          (eachPage fetchFn visitor (fuel - prs.length) stop).1,
         (eachPage fetchFn visitor (fuel - prs.length) stop).2) := by
  induction hc with
  | nil stop =>
    intro fuel _
    simp [chainEvents]
  | @cons u p nxt stop prs hfetch hne hnext _ ih =>
    intro fuel hfuel
    match fuel with
    | 0 => simp at hfuel
    | fuel + 1 =>
      have hvp : visitor p = (true, none) := hv (u, p) (List.mem_cons_self _ _)
      have hrest := ih (fun up hm => hv up (List.mem_cons_of_mem _ hm)) fuel
        (by simpa using Nat.lt_succ_iff.mp (Nat.lt_of_lt_of_le (Nat.lt_succ_self _)
          (by simpa using hfuel)))
      have hemp : p.IsEmpty = false := by
        simp [Page.IsEmpty, List.isEmpty_iff, hne]
      simp only [eachPage, hfetch, hemp, hvp, hnext, Bool.false_eq_true, if_false]
      rw [hrest]
      simp [chainEvents, Nat.succ_sub_succ]

/-- C1: over a response set of N non-empty linked pages, `EachPage` invokes
the visitor exactly N times, in page order (each page fetched then visited
before the next page's fetch, as the trace shows), performs exactly N HTTP
fetches, terminates successfully, and issues no extra or speculative fetch
beyond page N. -/
theorem eachPage_full_chain (fetchFn : Nat → Except PErr Page)
    (visitor : Page → Bool × Option PErr)
    {u0 : Option Nat} {prs : List (Nat × Page)}
    (hc : ChainSeg fetchFn u0 prs none)
    (hv : ∀ up ∈ prs, visitor up.2 = (true, none))
    (fuel : Nat) (hfuel : prs.length ≤ fuel) :
    eachPage fetchFn visitor fuel u0 = (chainEvents (prs.map Prod.fst), .success) ∧
    countFetches (chainEvents (prs.map Prod.fst)) = prs.length ∧
    countVisits (chainEvents (prs.map Prod.fst)) = prs.length := by
  have h := eachPage_chainSeg fetchFn visitor hc hv fuel hfuel
  refine ⟨?_, ?_, ?_⟩
  · rw [h]
    simp [eachPage]
  · simpa using countFetches_chainEvents (prs.map Prod.fst)
  · simpa using countVisits_chainEvents (prs.map Prod.fst)

theorem eachPage_full_chain_witness :
    eachPage fetch2 visitAll 2 (some 0) = (chainEvents [0, 1], .success) ∧
    countFetches (chainEvents [0, 1]) = 2 ∧
    countVisits (chainEvents [0, 1]) = 2 := by
  have hc : ChainSeg fetch2 (some 0) [(0, pageA), (1, pageB)] none :=
    .cons rfl (by decide) rfl (.cons rfl (by decide) rfl (.nil none))
  have h := eachPage_full_chain fetch2 visitAll hc
    (by intro up _; rfl) 2 (by decide)
  simpa using h

/-- C4: if the visitor returns a non-nil error on page k (after a cleanly
processed prefix), `EachPage` terminates with exactly that error value and
the trace ends at page k's visit — no fetch for page k+1 occurs. -/
theorem eachPage_visitor_error (fetchFn : Nat → Except PErr Page)
    (visitor : Page → Bool × Option PErr)
    {u0 : Option Nat} {prs : List (Nat × Page)} {u : Nat} {p : Page}
    {kg : Bool} {e : PErr}
    (hc : ChainSeg fetchFn u0 prs (some u))
    (hv : ∀ up ∈ prs, visitor up.2 = (true, none))
    (hfetch : fetchFn u = .ok p) (hne : p.records ≠ [])
    (hvis : visitor p = (kg, some e))
    (fuel : Nat) (hfuel : prs.length < fuel) :
    eachPage fetchFn visitor fuel u0 =
      (chainEvents (prs.map Prod.fst) ++ [.fetch u, .visit u], .failure e) := by
  have h := eachPage_chainSeg fetchFn visitor hc hv fuel (le_of_lt hfuel)
  rw [h]
  obtain ⟨k, hk⟩ : ∃ k, fuel - prs.length = k + 1 := ⟨fuel - prs.length - 1, by omega⟩
  rw [hk]
  have hemp : p.IsEmpty = false := by
    simp [Page.IsEmpty, List.isEmpty_iff, hne]
  simp [eachPage, hfetch, hemp, hvis]

theorem eachPage_visitor_error_witness :
    eachPage fetch2 visitFail 1 (some 0) =
      (chainEvents [] ++ [.fetch 0, .visit 0], .failure (.visitor "boom")) := by
  have h := eachPage_visitor_error fetch2 visitFail (ChainSeg.nil (some 0))
    (by intro up hm; cases hm) rfl (by decide) rfl 1 (by decide)
  simpa using h

/-- C5: a page with records but a malformed next-link is still delivered to
the visitor — the trace records page k's visit completing — and only then
does the link-parse error terminate the iteration; events already in the
trace (the data delivered for earlier pages and page k itself) are not
discarded. -/
theorem eachPage_bad_link_after_visit (fetchFn : Nat → Except PErr Page)
    (visitor : Page → Bool × Option PErr)
    {u0 : Option Nat} {prs : List (Nat × Page)} {u : Nat} {p : Page} {e : PErr}
    (hc : ChainSeg fetchFn u0 prs (some u))
    (hv : ∀ up ∈ prs, visitor up.2 = (true, none))
    (hfetch : fetchFn u = .ok p) (hne : p.records ≠ [])
    (hvis : visitor p = (true, none))
    (hlink : p.next = .error e)
    (fuel : Nat) (hfuel : prs.length < fuel) :
    eachPage fetchFn visitor fuel u0 =
      (chainEvents (prs.map Prod.fst) ++ [.fetch u, .visit u], .failure e) := by
  have h := eachPage_chainSeg fetchFn visitor hc hv fuel (le_of_lt hfuel)
  rw [h]
  obtain ⟨k, hk⟩ : ∃ k, fuel - prs.length = k + 1 := ⟨fuel - prs.length - 1, by omega⟩
  rw [hk]
  have hemp : p.IsEmpty = false := by
    simp [Page.IsEmpty, List.isEmpty_iff, hne]
  simp [eachPage, hfetch, hemp, hvis, hlink]

theorem eachPage_bad_link_after_visit_witness :
    eachPage fetchBadAt1 visitAll 2 (some 0) =
      (chainEvents [0] ++ [.fetch 1, .visit 1], .failure (.badLink "malformed")) := by
  have hc : ChainSeg fetchBadAt1 (some 0) [(0, pageA)] (some 1) :=
    .cons rfl (by decide) rfl (.nil (some 1))
  have h := eachPage_bad_link_after_visit fetchBadAt1 visitAll hc
    (by intro up _; rfl) rfl (by decide) rfl rfl 2 (by decide)
  simpa using h

/-- C6: if the visitor returns `keepGoing = false` on page k, `EachPage`
terminates successfully (nil error) and the trace ends at page k's visit —
no fetch for any later page occurs. -/
theorem eachPage_stop_early (fetchFn : Nat → Except PErr Page)
    (visitor : Page → Bool × Option PErr)
    {u0 : Option Nat} {prs : List (Nat × Page)} {u : Nat} {p : Page}
    (hc : ChainSeg fetchFn u0 prs (some u))
    (hv : ∀ up ∈ prs, visitor up.2 = (true, none))
    (hfetch : fetchFn u = .ok p) (hne : p.records ≠ [])
    (hvis : visitor p = (false, none))
    (fuel : Nat) (hfuel : prs.length < fuel) :
    eachPage fetchFn visitor fuel u0 =
      (chainEvents (prs.map Prod.fst) ++ [.fetch u, .visit u], .success) := by
  have h := eachPage_chainSeg fetchFn visitor hc hv fuel (le_of_lt hfuel)
  rw [h]
  obtain ⟨k, hk⟩ : ∃ k, fuel - prs.length = k + 1 := ⟨fuel - prs.length - 1, by omega⟩
  rw [hk]
  have hemp : p.IsEmpty = false := by
    simp [Page.IsEmpty, List.isEmpty_iff, hne]
  simp [eachPage, hfetch, hemp, hvis]

theorem eachPage_stop_early_witness :
    eachPage fetch3 visitStopAtB 5 (some 0) =
      (chainEvents [0] ++ [.fetch 1, .visit 1], .success) := by
  have hc : ChainSeg fetch3 (some 0) [(0, pageA)] (some 1) :=
    .cons rfl (by decide) rfl (.nil (some 1))
  have h := eachPage_stop_early fetch3 visitStopAtB hc
    (by intro up hm; simp at hm; simp [hm, visitStopAtB, pageA]) rfl
    (by decide) rfl 5 (by decide)
  simpa using h

/-- C7: a fetched page with zero records has `IsEmpty = true`, the visitor
is not invoked for it (the trace ends with its fetch, no visit event), and
the iteration terminates successfully. -/
theorem eachPage_empty_page (fetchFn : Nat → Except PErr Page)
    (visitor : Page → Bool × Option PErr)
    {u0 : Option Nat} {prs : List (Nat × Page)} {u : Nat} {p : Page}
    (hc : ChainSeg fetchFn u0 prs (some u))
    (hv : ∀ up ∈ prs, visitor up.2 = (true, none))
    (hfetch : fetchFn u = .ok p) (hrec : p.records = [])
    (fuel : Nat) (hfuel : prs.length < fuel) :
    p.IsEmpty = true ∧
    eachPage fetchFn visitor fuel u0 =
      (chainEvents (prs.map Prod.fst) ++ [.fetch u], .success) := by
  have hemp : p.IsEmpty = true := by
    simp [Page.IsEmpty, hrec]
  refine ⟨hemp, ?_⟩
  have h := eachPage_chainSeg fetchFn visitor hc hv fuel (le_of_lt hfuel)
  rw [h]
  obtain ⟨k, hk⟩ : ∃ k, fuel - prs.length = k + 1 := ⟨fuel - prs.length - 1, by omega⟩
  rw [hk]
  simp [eachPage, hfetch, hemp]

theorem eachPage_empty_page_witness :
    pageEmpty.IsEmpty = true ∧
    eachPage fetchEmptyAt1 visitAll 2 (some 0) =
      (chainEvents [0] ++ [.fetch 1], .success) := by
  have hc : ChainSeg fetchEmptyAt1 (some 0) [(0, pageA)] (some 1) :=
    .cons rfl (by decide) rfl (.nil (some 1))
  have h := eachPage_empty_page fetchEmptyAt1 visitAll hc
    (by intro up _; rfl) rfl rfl 2 (by decide)
  simpa using h

end Pagination

namespace Vips

theorem countP_ite_singleton {α : Type} (p : α → Bool) (c : Prop) [Decidable c]
    (x : α) :
    (if c then [x] else []).countP p =
      if c then (if p x then 1 else 0) else 0 := by
  split
  · simp [List.countP_cons]
  · simp

theorem countP_ite_nil_singleton {α : Type} (p : α → Bool) (c : Prop) [Decidable c]
    (x : α) :
    (if c then ([] : List α) else [x]).countP p =
      if c then 0 else (if p x then 1 else 0) := by
  split
  · simp
  · simp [List.countP_cons]

/-- C2: in the query built by `List`, each populated `ListOpts` field
appears exactly once under its fixed parameter name, unpopulated fields
never appear (count zero), and when no field is populated the query map is
empty and the built query string is empty. -/
theorem List_query_param_mapping (opts : ListOpts) :
    countKey (listQuery opts) "id" = (if opts.id ≠ "" then 1 else 0) ∧
    countKey (listQuery opts) "name" = (if opts.name ≠ "" then 1 else 0) ∧
    countKey (listQuery opts) "admin_state_up" =
      (if opts.adminStateUp.isSome then 1 else 0) ∧
    countKey (listQuery opts) "status" = (if opts.status ≠ "" then 1 else 0) ∧
    countKey (listQuery opts) "tenant_id" = (if opts.tenantID ≠ "" then 1 else 0) ∧
    countKey (listQuery opts) "subnet_id" = (if opts.subnetID ≠ "" then 1 else 0) ∧
    countKey (listQuery opts) "address" = (if opts.address ≠ "" then 1 else 0) ∧
    countKey (listQuery opts) "port_id" = (if opts.portID ≠ "" then 1 else 0) ∧
    countKey (listQuery opts) "protocol" = (if opts.protocol ≠ "" then 1 else 0) ∧
    countKey (listQuery opts) "protocol_port" =
      (if opts.protocolPort ≠ 0 then 1 else 0) ∧
    countKey (listQuery opts) "connection_limit" =
      (if opts.connectionLimit ≠ 0 then 1 else 0) ∧
    countKey (listQuery opts) "marker" = (if opts.marker ≠ "" then 1 else 0) ∧
    countKey (listQuery opts) "limit" = (if opts.limit ≠ 0 then 1 else 0) ∧
    countKey (listQuery opts) "sort_key" = (if opts.sortKey ≠ "" then 1 else 0) ∧
    countKey (listQuery opts) "sort_dir" = (if opts.sortDir ≠ "" then 1 else 0) ∧
    (opts = {} → listQuery opts = [] ∧ buildQuery (listQuery opts) = "") := by
  refine ⟨?_, ?_, ?_, ?_, ?_, ?_, ?_, ?_, ?_, ?_, ?_, ?_, ?_, ?_, ?_, ?_⟩
  all_goals
    first
    | (intro h; subst h; simp [listQuery, buildQuery])
    | simp [listQuery, countKey, List.countP_append, countP_ite_singleton,
        countP_ite_nil_singleton]

theorem List_query_param_mapping_witness :
    countKey (listQuery { name := "vip1", sortKey := "id" }) "name" = 1 ∧
    countKey (listQuery { name := "vip1", sortKey := "id" }) "sort_key" = 1 ∧
    countKey (listQuery { name := "vip1", sortKey := "id" }) "tenant_id" = 0 ∧
    listQuery {} = [] ∧ buildQuery (listQuery {}) = "" := by
  have h1 := List_query_param_mapping { name := "vip1", sortKey := "id" }
  have h2 := (List_query_param_mapping {}).2.2.2.2.2.2.2.2.2.2.2.2.2.2.2 rfl
  exact ⟨by simpa using h1.2.1, by simpa using h1.2.2.2.2.2.2.2.2.2.2.2.2.2.1,
    by simpa using h1.2.2.2.2.1, h2.1, h2.2⟩

/-- C3: when a required field of `CreateOpts` is empty/zero, `Create`
returns immediately with the validation error in the result's `Err` field —
the same channel transport errors use — its `Resp` unset, and the list of
issued requests empty (no network call). -/
theorem Create_validation_no_network (opts : CreateOpts)
    (hbad : opts.name = "" ∨ opts.subnetID = "" ∨ opts.protocol = "" ∨
      opts.protocolPort = 0 ∨ opts.poolID = "")
    (status : Int) (respBody : String) :
    (createValidate opts).isSome ∧
    (Create status respBody opts).1 =
      { err := createValidate opts, resp := none } ∧
    (Create status respBody opts).2 = [] := by
  have hv : (createValidate opts).isSome := by
    unfold createValidate
    rcases hbad with h | h | h | h | h <;> simp [h] <;> split_ifs <;> simp
  obtain ⟨e, he⟩ := Option.isSome_iff_exists.mp hv
  refine ⟨hv, ?_, ?_⟩ <;> simp [Create, he]

theorem Create_validation_no_network_witness :
    (createValidate optsNoName).isSome ∧
    (Create 201 "resp" optsNoName).1 =
      { err := createValidate optsNoName, resp := none } ∧
    (Create 201 "resp" optsNoName).2 = [] :=
  Create_validation_no_network optsNoName (Or.inl rfl) 201 "resp"

/-- C9: `Create` checks required fields in the fixed source order Name,
SubnetID, Protocol, ProtocolPort, PoolID and reports the error of the first
zero-valued one; `ProtocolPort = 0` is always rejected (no request with
port 0 is ever submitted); and on any validation failure the result is
exactly that error with no response and no request issued. -/
theorem Create_validation_order (opts : CreateOpts) (status : Int)
    (respBody : String) :
    (opts.name = "" →
      createValidate opts = some .errNameRequired) ∧
    (opts.name ≠ "" → opts.subnetID = "" →
      createValidate opts = some .errSubnetIDRequried) ∧
    (opts.name ≠ "" → opts.subnetID ≠ "" → opts.protocol = "" →
      createValidate opts = some .errProtocolRequired) ∧
    (opts.name ≠ "" → opts.subnetID ≠ "" → opts.protocol ≠ "" →
      opts.protocolPort = 0 →
      createValidate opts = some .errProtocolPortRequired) ∧
    (opts.name ≠ "" → opts.subnetID ≠ "" → opts.protocol ≠ "" →
      opts.protocolPort ≠ 0 → opts.poolID = "" →
      createValidate opts = some .errPoolIDRequired) ∧
    (opts.protocolPort = 0 →
      (createValidate opts).isSome ∧ (Create status respBody opts).2 = []) ∧
    (∀ e, createValidate opts = some e →
      Create status respBody opts = ({ err := some e, resp := none }, [])) := by
  refine ⟨?_, ?_, ?_, ?_, ?_, ?_, ?_⟩
  · intro h; simp [createValidate, h]
  · intro h1 h2; simp [createValidate, h1, h2]
  · intro h1 h2 h3; simp [createValidate, h1, h2, h3]
  · intro h1 h2 h3 h4; simp [createValidate, h1, h2, h3, h4]
  · intro h1 h2 h3 h4 h5; simp [createValidate, h1, h2, h3, h4, h5]
  · intro h
    have hv : (createValidate opts).isSome := by
      unfold createValidate
      split_ifs <;> simp_all
    obtain ⟨e, he⟩ := Option.isSome_iff_exists.mp hv
    exact ⟨hv, by simp [Create, he]⟩
  · intro e he; simp [Create, he]

theorem Create_validation_order_witness :
    createValidate optsNoSubnet = some .errSubnetIDRequried ∧
    (createValidate optsPortZero).isSome ∧
    Create 201 "resp" optsNoSubnet =
      ({ err := some .errSubnetIDRequried, resp := none }, []) := by
  have h1 := Create_validation_order optsNoSubnet 201 "resp"
  have h2 := Create_validation_order optsPortZero 201 "resp"
  have he := h1.2.1 (by decide) rfl
  exact ⟨he, (h2.2.2.2.2.2.1 rfl).1, h1.2.2.2.2.2.2 _ he⟩

/-- C8: with all required fields populated, `Create` against an endpoint
answering 201 yields a nil error and the decoded response; a 409 answer
yields a non-nil transport error; in both cases exactly one request is
issued (no retry). -/
theorem Create_status_handling (opts : CreateOpts) (respBody : String)
    (hok : createValidate opts = none) :
    (Create 201 respBody opts).1.err = none ∧
    (Create 201 respBody opts).1.resp = some respBody ∧
    (Create 201 respBody opts).2.length = 1 ∧
    (Create 409 respBody opts).1.err = some (.transport 409) ∧
    (Create 409 respBody opts).2.length = 1 := by
  refine ⟨?_, ?_, ?_, ?_, ?_⟩ <;>
    simp [Create, hok, perigeeRequest]

theorem Create_status_handling_witness :
    (Create 201 "resp" optsValid).1.err = none ∧
    (Create 201 "resp" optsValid).1.resp = some "resp" ∧
    (Create 201 "resp" optsValid).2.length = 1 ∧
    (Create 409 "resp" optsValid).1.err = some (.transport 409) ∧
    (Create 409 "resp" optsValid).2.length = 1 :=
  Create_status_handling optsValid "resp" rfl

/-- C10: in the request body built by `Create`, the optional string fields
Description, TenantID and Address are serialized exactly when the
corresponding option is a non-empty string (`MaybeString` maps `""` to an
absent field, so an explicitly-empty string and an absent field produce the
same wire body), and a nil Persistence, ConnLimit or AdminStateUp is
likewise omitted. -/
theorem Create_body_omits_empty_optionals (opts : CreateOpts) :
    ((createReqBody opts).description = MaybeString opts.description ∧
      MaybeString "" = none) ∧
    ("description" ∈ vipJSONFields (createReqBody opts) ↔
      opts.description ≠ "") ∧
    ("tenant_id" ∈ vipJSONFields (createReqBody opts) ↔ opts.tenantID ≠ "") ∧
    ("address" ∈ vipJSONFields (createReqBody opts) ↔ opts.address ≠ "") ∧
    ("session_persistence" ∈ vipJSONFields (createReqBody opts) ↔
      opts.persistence.isSome) ∧
    ("connection_limit" ∈ vipJSONFields (createReqBody opts) ↔
      opts.connLimit.isSome) ∧
    ("admin_state_up" ∈ vipJSONFields (createReqBody opts) ↔
      opts.adminStateUp.isSome) := by
  have hbody : createReqBody opts =
      { name := opts.name, subnetID := opts.subnetID,
        protocol := opts.protocol, protocolPort := opts.protocolPort,
        poolID := opts.poolID, description := MaybeString opts.description,
        tenantID := MaybeString opts.tenantID,
        address := MaybeString opts.address,
        persistence := opts.persistence, connLimit := opts.connLimit,
        adminStateUp := opts.adminStateUp } := by
    unfold createReqBody
    cases h : opts.persistence <;> simp [h]
  refine ⟨⟨by rw [hbody], rfl⟩, ?_, ?_, ?_, ?_, ?_, ?_⟩ <;> rw [hbody]
  all_goals
    simp [vipJSONFields, MaybeString]

end Vips
